import Mathlib

/-!
Verification model of `src/textclassification.py`.

The repository implements a small TCP text-classification service: a
length-prefixed framing layer (`SimpleSocket` on the client side, the
`ThreadedTCPRequestHandler`'s `send`/`receive` on the server side), a
per-connection command dispatcher, streaming commands (MD5_STREAM,
PREDICT_STREAM) that accumulate frames until a zero-length sentinel, and a
process-wide classifier registry mutated by SET_CLASSIFIER.

Embedding conventions:
- Byte strings are `List Nat` (each element a byte value).  A socket/stream
  is the finite list of bytes that will arrive before the peer closes;
  `recv n` / `read n` are modelled as `List.take n` (deterministic: all the
  data is taken to be available, EOF afterwards).
- A Python exception that the handler does not catch (struct.error,
  KeyError, IndexError, FileNotFoundError) is modelled as `Except.error ()`;
  normal returns are `Except.ok`.
- JSON responses are modelled structurally (`Output`), not as serialized
  text: `Output.json status result` stands for the bytes of
  `json.dumps({"status": status, "result": result}).encode()`, and
  `Output.raw bs` for a non-JSON payload (the RELOAD reply).
- `.decode("utf-8")` is modelled as the identity on bytes (valid UTF-8 is
  assumed; byte-level splitting on a newline or colon byte agrees with
  character-level splitting of the decoded string for such inputs).
-/

set_option maxRecDepth 40000
set_option maxHeartbeats 1600000

deriving instance DecidableEq for Except

namespace TextClassification

/-- MaxFrameSize: `SimpleSocket.max_data_size` in the source. -/
def max_data_size : Nat := 4096

/-- MaxFrameSize: `ThreadedTCPRequestHandler.max_buffer_size` in the source. -/
def max_buffer_size : Nat := 4096

/-- ASCII bytes of a string literal (all literals used are ASCII, where
this coincides with UTF-8 encoding). -/
def strBytes (s : String) : List Nat := s.data.map Char.toNat

/-- Little-endian value of exactly four bytes (the decode half of
`struct.unpack` with format `=I` on a little-endian host). -/
def le32 (bs : List Nat) : Nat :=
  match bs with
  | [b0, b1, b2, b3] => b0 + 256 * b1 + 65536 * b2 + 16777216 * b3
  | _ => 0

/-- `struct.pack('=I', n)`: four little-endian bytes of `n` (mod 2^32). -/
def pack_u32 (n : Nat) : List Nat :=
  [n % 256, n / 256 % 256, n / 65536 % 256, n / 16777216 % 256]

/-- `struct.unpack('=I', bs)`: requires exactly four bytes, else raises
(struct.error), modelled as `none`. -/
def unpack_u32 (bs : List Nat) : Option Nat :=
  if bs.length = 4 then some (le32 bs) else none

/-- Bytes written by `send(data)` (identical in `SimpleSocket.send` and
`ThreadedTCPRequestHandler.send`): a packed 4-byte length header followed by
the payload. -/
def sendFrame (data : List Nat) : List Nat :=
  pack_u32 data.length ++ data

/-- `SimpleSocket.receive` on a stream `s`: `recv(4)` (no empty-header
check), `struct.unpack` (raises unless exactly 4 bytes came back), then the
size test, then `recv(size)`.  `Except.error` is an uncaught struct.error. -/
def SimpleSocket.receive (s : List Nat) :
    Except Unit (Option (List Nat) × List Nat) :=
  match unpack_u32 (s.take 4) with
  | none => .error ()
  | some size =>
    if size = 0 ∨ size > max_data_size then .ok (none, s.drop 4)
    else .ok (some ((s.drop 4).take size), (s.drop 4).drop size)

/-- `ThreadedTCPRequestHandler.receive` on a stream `s`: `rfile.read(4)`,
an explicit empty-header check returning `None`, `struct.unpack` (raises on
a 1–3 byte truncated header), the size test, then `rfile.read(size)`. -/
def ThreadedTCPRequestHandler.receive (s : List Nat) :
    Except Unit (Option (List Nat) × List Nat) :=
  if s.take 4 = [] then .ok (none, s.drop 4)
  else
    match unpack_u32 (s.take 4) with
    | none => .error ()
    | some size =>
      if size = 0 ∨ size > max_buffer_size then .ok (none, s.drop 4)
      else .ok (some ((s.drop 4).take size), (s.drop 4).drop size)

/-- Bytes counted as whitespace by `bytes.rstrip()`. -/
def isSpaceByte (b : Nat) : Bool :=
  b = 9 || b = 10 || b = 11 || b = 12 || b = 13 || b = 32

/-- `data.rstrip()`: drop trailing ASCII whitespace bytes. -/
def rstripBytes (bs : List Nat) : List Nat :=
  (bs.reverse.dropWhile isSpaceByte).reverse

/-- `bs.split(sep)` for a single separator byte, with Python semantics:
the empty byte string splits to one empty field. -/
def bsplit (sep : Nat) : List Nat → List (List Nat)
  | [] => [[]]
  | b :: bs =>
    if b = sep then [] :: bsplit sep bs
    else
      match bsplit sep bs with
      | [] => [[b]]
      | h :: t => (b :: h) :: t

/-! MD5 (RFC 1321), used by `hashlib.md5` in `md5_file` / `md5_stream`.
Executable reference implementation over byte lists; 32-bit words are `Nat`
reduced mod 2^32. -/

/-- Left-rotate a 32-bit word by `n` bits. -/
def rotl32 (x n : Nat) : Nat :=
  ((x % 4294967296) * 2 ^ n) % 4294967296 + (x % 4294967296) / 2 ^ (32 - n)

/-- Round function F (rounds 0–15). -/
def md5F (b c d : Nat) : Nat := (b &&& c) ||| ((b ^^^ 4294967295) &&& d)

/-- Round function G (rounds 16–31). -/
def md5G (b c d : Nat) : Nat := (d &&& b) ||| ((d ^^^ 4294967295) &&& c)

/-- Round function H (rounds 32–47). -/
def md5H (b c d : Nat) : Nat := b ^^^ c ^^^ d

/-- Round function I (rounds 48–63). -/
def md5I (b c d : Nat) : Nat := c ^^^ (b ||| (d ^^^ 4294967295))

/-- Per-step left-rotation amounts. -/
def md5S : List Nat :=
  [7, 12, 17, 22, 7, 12, 17, 22, 7, 12, 17, 22, 7, 12, 17, 22,
   5, 9, 14, 20, 5, 9, 14, 20, 5, 9, 14, 20, 5, 9, 14, 20,
   4, 11, 16, 23, 4, 11, 16, 23, 4, 11, 16, 23, 4, 11, 16, 23,
   6, 10, 15, 21, 6, 10, 15, 21, 6, 10, 15, 21, 6, 10, 15, 21]

/-- Sine-derived additive constants. -/
def md5K : List Nat :=
  [0xd76aa478, 0xe8c7b756, 0x242070db, 0xc1bdceee,
   0xf57c0faf, 0x4787c62a, 0xa8304613, 0xfd469501,
   0x698098d8, 0x8b44f7af, 0xffff5bb1, 0x895cd7be,
   0x6b901122, 0xfd987193, 0xa679438e, 0x49b40821,
   0xf61e2562, 0xc040b340, 0x265e5a51, 0xe9b6c7aa,
   0xd62f105d, 0x02441453, 0xd8a1e681, 0xe7d3fbc8,
   0x21e1cde6, 0xc33707d6, 0xf4d50d87, 0x455a14ed,
   0xa9e3e905, 0xfcefa3f8, 0x676f02d9, 0x8d2a4c8a,
   0xfffa3942, 0x8771f681, 0x6d9d6122, 0xfde5380c,
   0xa4beea44, 0x4bdecfa9, 0xf6bb4b60, 0xbebfbc70,
   0x289b7ec6, 0xeaa127fa, 0xd4ef3085, 0x04881d05,
   0xd9d4d039, 0xe6db99e5, 0x1fa27cf8, 0xc4ac5665,
   0xf4292244, 0x432aff97, 0xab9423a7, 0xfc93a039,
   0x655b59c3, 0x8f0ccc92, 0xffeff47d, 0x85845dd1,
   0x6fa87e4f, 0xfe2ce6e0, 0xa3014314, 0x4e0811a1,
   0xf7537e82, 0xbd3af235, 0x2ad7d2bb, 0xeb86d391]

/-- One of the 64 MD5 steps; `M g` is the g-th little-endian word of the
current 64-byte block. -/
def md5Step (M : Nat → Nat) (st : Nat × Nat × Nat × Nat) (i : Nat) :
    Nat × Nat × Nat × Nat :=
  let a := st.1; let b := st.2.1; let c := st.2.2.1; let d := st.2.2.2
  let f :=
    if i < 16 then md5F b c d
    else if i < 32 then md5G b c d
    else if i < 48 then md5H b c d
    else md5I b c d
  let g :=
    if i < 16 then i
    else if i < 32 then (5 * i + 1) % 16
    else if i < 48 then (3 * i + 5) % 16
    else 7 * i % 16
  let f2 := (f + a + md5K.getD i 0 + M g) % 4294967296
  (d, (b + rotl32 f2 (md5S.getD i 0)) % 4294967296, b, c)

/-- `k` little-endian bytes of `n`. -/
def leBytes (k n : Nat) : List Nat :=
  (List.range k).map fun j => n / 256 ^ j % 256

/-- Process one padded 64-byte block. -/
def md5Block (st : Nat × Nat × Nat × Nat) (block : List Nat) :
    Nat × Nat × Nat × Nat :=
  let M : Nat → Nat := fun g => le32 ((block.drop (4 * g)).take 4)
  let r := (List.range 64).foldl (md5Step M) st
  ((st.1 + r.1) % 4294967296, (st.2.1 + r.2.1) % 4294967296,
   (st.2.2.1 + r.2.2.1) % 4294967296, (st.2.2.2 + r.2.2.2) % 4294967296)

/-- MD5 padding: 0x80, zeros to 56 mod 64, then the bit length as eight
little-endian bytes. -/
def md5Pad (msg : List Nat) : List Nat :=
  msg ++ [128] ++ List.replicate ((119 - msg.length % 64) % 64) 0 ++
    leBytes 8 (msg.length * 8)

/-- Split a byte list into 64-byte blocks (fuel-based structural recursion;
each step consumes 64 bytes, so `l.length` steps of fuel always suffice). -/
def chunks64Go : Nat → List Nat → List (List Nat)
  | 0, _ => []
  | fuel + 1, l => if l = [] then [] else l.take 64 :: chunks64Go fuel (l.drop 64)

/-- Split a byte list into 64-byte blocks. -/
def chunks64 (l : List Nat) : List (List Nat) :=
  chunks64Go l.length l

/-- The 16-byte MD5 digest of a byte string. -/
def md5Bytes (msg : List Nat) : List Nat :=
  let st := (chunks64 (md5Pad msg)).foldl md5Block
    (0x67452301, 0xefcdab89, 0x98badcfe, 0x10325476)
  leBytes 4 st.1 ++ leBytes 4 st.2.1 ++ leBytes 4 st.2.2.1 ++ leBytes 4 st.2.2.2

/-- Lowercase hex character of a value below 16. -/
def hexDigit (n : Nat) : Char :=
  if n < 10 then Char.ofNat (48 + n) else Char.ofNat (87 + n)

/-- `hexdigest()`: lowercase hex string of the digest of `msg`. -/
def md5hex (msg : List Nat) : String :=
  String.mk ((md5Bytes msg).foldr (fun b acc => hexDigit (b / 16) :: hexDigit (b % 16) :: acc) [])

/-! The classifier registry (`TextClassificationServer.classifiers`): a
Python dict from classifier name to `{'enabled': bool, 'class': instance}`,
insertion-ordered.  Modelled as an ordered association list; the opaque
classifier instance is represented by its `predict` capability, a function
from the list of lines to a prediction value (both at the byte level). -/

/-- One registry value: the `enabled` flag and the classifier instance,
represented by its `predict` function. -/
structure ClassifierEntry where
  enabled : Bool
  cls : List (List Nat) → List Nat

/-- The process-wide classifier registry. -/
abbrev Registry := List (List Nat × ClassifierEntry)

/-- A server-local filesystem: file name (bytes) to content, for
`open(file_name, 'rb').read()`. -/
abbrev FileSys := List (List Nat × List Nat)

/-- Dict lookup `classifiers[name]` (first match). -/
def lookupEntry : Registry → List Nat → Option ClassifierEntry
  | [], _ => none
  | (n, e) :: t, name => if n = name then some e else lookupEntry t name

/-- In-place mutation `classifiers[name]['enabled'] = b` (first match;
a missing key is handled by the caller via `lookupEntry`). -/
def setFlag : Registry → List Nat → Bool → Registry
  | [], _, _ => []
  | (n, e) :: t, name, b =>
    if n = name then (n, { e with enabled := b }) :: t
    else (n, e) :: setFlag t name b

/-- File read `open(file_name, 'rb').read()`; `none` = FileNotFoundError. -/
def lookupFile : FileSys → List Nat → Option (List Nat)
  | [], _ => none
  | (n, c) :: t, name => if n = name then some c else lookupFile t name

/-- The `result` field of a JSON response, in the shapes the handlers
produce. -/
inductive ResVal where
  /-- a plain string result -/
  | str : String → ResVal
  /-- the LIST_CLASSIFIER mapping name -> enabled -/
  | flags : List (List Nat × Bool) → ResVal
  /-- the SET_CLASSIFIER result: a one-element list holding {name: enabled} -/
  | flagsList : List (List Nat × Bool) → ResVal
  /-- a prediction mapping name -> predict result -/
  | preds : List (List Nat × List Nat) → ResVal
deriving DecidableEq

/-- One frame written by the handler: either a JSON `{status, result}`
response or a raw non-JSON payload (the RELOAD reply). -/
inductive Output where
  /-- json.dumps({"status": status, "result": result}) -/
  | json : String → ResVal → Output
  /-- a raw byte payload -/
  | raw : List Nat → Output
deriving DecidableEq

/-- ASCII lowercasing, modelling `str.lower()` on the decoded value (the
compared literals "true"/"false" are ASCII). -/
def asciiLower (bs : List Nat) : List Nat :=
  bs.map fun b => if 65 ≤ b ∧ b ≤ 90 then b + 32 else b

/-- `__version__`, imported from the external `_version` module (not under
src/); its value is irrelevant to every claim. -/
def versionValue : String := ""

/-- `ping()`: respond OK/"PONG". -/
def ping_resp : Output := .json "OK" (.str "PONG")

/-- `close()`: respond OK/"Bye" (the handler then breaks the loop). -/
def close_resp : Output := .json "OK" (.str "Bye")

/-- `version()`: respond OK/version string. -/
def version_resp : Output := .json "OK" (.str versionValue)

/-- `reload()`: the raw non-JSON payload b'reload'. -/
def reload_resp : Output := .raw (strBytes "reload")

/-- `unknown_command()`: respond ERROR/"Unknown Command". -/
def unknown_resp : Output := .json "ERROR" (.str "Unknown Command")

/-- The name -> enabled snapshot comprehension in `list_classifier`. -/
def flagsOf (reg : Registry) : List (List Nat × Bool) :=
  reg.map fun p => (p.1, p.2.enabled)

/-- `list_classifier()`: respond OK with the name -> enabled mapping. -/
def list_classifier (reg : Registry) : Output :=
  .json "OK" (.flags (flagsOf reg))

/-- `set_classifier(classifier, value)`: status starts "OK"; a value whose
lowercasing is "true"/"false" assigns the entry's flag (KeyError — modelled
as `Except.error` — if the name is unregistered); any other value flips the
status to "ERROR" without mutating; the result re-reads
`classifiers[classifier]['enabled']`, which also raises KeyError for an
unregistered name. -/
def set_classifier_step (reg : Registry) (classifier value : List Nat) :
    Except Unit (String × Registry) :=
  if asciiLower value = strBytes "true" then
    match lookupEntry reg classifier with
    | some _ => .ok ("OK", setFlag reg classifier true)
    | none => .error ()
  else if asciiLower value = strBytes "false" then
    match lookupEntry reg classifier with
    | some _ => .ok ("OK", setFlag reg classifier false)
    | none => .error ()
  else .ok ("ERROR", reg)

/-- The remainder of `set_classifier`: build and send the response, reading
`classifiers[classifier]['enabled']` back (KeyError if unregistered). -/
def set_classifier (reg : Registry) (classifier value : List Nat) :
    Except Unit (Registry × Output) :=
  match set_classifier_step reg classifier value with
  | .error _ => .error ()
  | .ok (status, reg2) =>
    match lookupEntry reg2 classifier with
    | none => .error ()
    | some e => .ok (reg2, .json status (.flagsList [(classifier, e.enabled)]))

/-- `md5_file(file_name)`: read the file (FileNotFoundError is an uncaught
exception) and respond OK with its hex digest (`if hash_md5:` is always
true, so the Error branch in the source is dead). -/
def md5_file (fs : FileSys) (file_name : List Nat) : Except Unit Output :=
  match lookupFile fs file_name with
  | none => .error ()
  | some content => .ok (.json "OK" (.str (md5hex content)))

/-! The streaming sub-loop shared by `md5_stream` and `predict_stream`:
`receive()` until it yields `None` (sentinel frame, oversized length, or
peer close), collecting each non-`None` frame payload.  Defined with fuel
(structural recursion): every continuing iteration consumes at least five
bytes of the stream, so `s.length + 1` steps of fuel always suffice and the
zero-fuel branch is unreachable from `streamAccum`. -/

/-- Fuel-indexed streaming sub-loop. -/
def streamAccumGo : Nat → List Nat → Except Unit (List (List Nat) × List Nat)
  | 0, _ => .error ()
  | fuel + 1, s =>
    match ThreadedTCPRequestHandler.receive s with
    | .error _ => .error ()
    | .ok (none, s1) => .ok ([], s1)
    | .ok (some d, s1) =>
      match streamAccumGo fuel s1 with
      | .error _ => .error ()
      | .ok (cs, rest) => .ok (d :: cs, rest)

/-- The streaming sub-loop: the collected frame payloads and the unread
remainder of the stream, or an uncaught exception from `receive`. -/
def streamAccum (s : List Nat) : Except Unit (List (List Nat) × List Nat) :=
  streamAccumGo (s.length + 1) s

/-- `md5_stream()`: hash every received frame (incremental `update` equals
hashing the concatenation), respond OK with the hex digest once `receive`
yields `None` (`if hash_md5:` is always true, the Error branch is dead). -/
def md5_stream (s : List Nat) : Except Unit (Output × List Nat) :=
  match streamAccum s with
  | .error _ => .error ()
  | .ok (chunks, rest) => .ok (.json "OK" (.str (md5hex chunks.flatten)), rest)

/-- The registry loop shared verbatim by `predict_stream` and
`predict_file`: for each name in registry order, if enabled, record
`predict(multi_line)` under that name. -/
def predictAll (reg : Registry) (multi_line : List (List Nat)) :
    List (List Nat × List Nat) :=
  match reg with
  | [] => []
  | (n, e) :: t =>
    if e.enabled then (n, e.cls multi_line) :: predictAll t multi_line
    else predictAll t multi_line

/-- `predict_stream()`: accumulate frames until `receive` yields `None`,
decode and split on newline, run the enabled classifiers, respond OK. -/
def predict_stream (reg : Registry) (s : List Nat) :
    Except Unit (Output × List Nat) :=
  match streamAccum s with
  | .error _ => .error ()
  | .ok (chunks, rest) =>
    .ok (.json "OK" (.preds (predictAll reg (bsplit 10 chunks.flatten))), rest)

/-- `predict_file(file_name)`: read the file (FileNotFoundError is an
uncaught exception), split on newline, run the enabled classifiers,
respond OK. -/
def predict_file (fs : FileSys) (reg : Registry) (file_name : List Nat) :
    Except Unit Output :=
  match lookupFile fs file_name with
  | none => .error ()
  | some data =>
    .ok (.json "OK" (.preds (predictAll reg (bsplit 10 data))))

/-! The per-connection command loop (`handle`): receive a frame, rstrip,
split on b':', dispatch on the verb, until `receive` yields `None` (silent
close), CLOSE is processed (close after responding), or an uncaught
exception ends the handler (socketserver then closes the connection). -/

/-- How a connection ends: `closed` (loop left normally — `None` receive or
CLOSE) or `crashed` (an uncaught exception ended the handler thread). -/
inductive ConnTerm where
  | closed
  | crashed
deriving DecidableEq

/-- The parsed command line: `data.rstrip().split(b':')`. -/
def cmdHeader (payload : List Nat) : List (List Nat) :=
  bsplit 58 (rstripBytes payload)

/-- The verb `header[0]` (a split result is never empty, so this indexing
cannot fail). -/
def cmdVerb (payload : List Nat) : List Nat :=
  (cmdHeader payload).headD []

/-- Dispatch of one received command frame `payload`; `rest` is the unread
remainder of the connection's stream (consumed further by the streaming
commands).  Returns the registry after the command, the frames sent, the
remaining stream, and whether the loop breaks (CLOSE); `Except.error` is an
uncaught exception (IndexError on a missing argument, KeyError, struct
errors inside a streaming sub-loop, FileNotFoundError). -/
def dispatchCmd (fs : FileSys) (reg : Registry) (payload rest : List Nat) :
    Except Unit (Registry × List Output × List Nat × Bool) :=
  if cmdVerb payload = strBytes "PING" then .ok (reg, [ping_resp], rest, false)
  else if cmdVerb payload = strBytes "VERSION" then
    .ok (reg, [version_resp], rest, false)
  else if cmdVerb payload = strBytes "RELOAD" then
    .ok (reg, [reload_resp], rest, false)
  else if cmdVerb payload = strBytes "LIST_CLASSIFIER" then
    .ok (reg, [list_classifier reg], rest, false)
  else if cmdVerb payload = strBytes "SET_CLASSIFIER" then
    match (cmdHeader payload)[1]?, (cmdHeader payload)[2]? with
    | some classifier, some value =>
      match set_classifier reg classifier value with
      | .error _ => .error ()
      | .ok (reg2, out) => .ok (reg2, [out], rest, false)
    | _, _ => .error ()
  else if cmdVerb payload = strBytes "MD5_FILE" then
    match (cmdHeader payload)[1]? with
    | some file_name =>
      match md5_file fs file_name with
      | .error _ => .error ()
      | .ok out => .ok (reg, [out], rest, false)
    | none => .error ()
  else if cmdVerb payload = strBytes "MD5_STREAM" then
    match md5_stream rest with
    | .error _ => .error ()
    | .ok (out, rest2) => .ok (reg, [out], rest2, false)
  else if cmdVerb payload = strBytes "PREDICT_STREAM" then
    match predict_stream reg rest with
    | .error _ => .error ()
    | .ok (out, rest2) => .ok (reg, [out], rest2, false)
  else if cmdVerb payload = strBytes "PREDICT_FILE" then
    match (cmdHeader payload)[1]? with
    | some file_name =>
      match predict_file fs reg file_name with
      | .error _ => .error ()
      | .ok out => .ok (reg, [out], rest, false)
    | none => .error ()
  else if cmdVerb payload = strBytes "CLOSE" then .ok (reg, [close_resp], rest, true)
  else .ok (reg, [unknown_resp], rest, false)

/-- Fuel-indexed main loop of `handle`.  Every continuing iteration consumes
at least five bytes of the stream (a non-`None` receive reads a 4-byte
header and a nonempty payload, and a streaming command only consumes more),
so `s.length + 1` steps of fuel always suffice and the zero-fuel branch is
unreachable from `handle`. -/
def handleGo : Nat → Registry → FileSys → List Nat →
    Registry × List Output × ConnTerm
  | 0, reg, _, _ => (reg, [], .closed)
  | fuel + 1, reg, fs, s =>
    match ThreadedTCPRequestHandler.receive s with
    | .error _ => (reg, [], .crashed)
    | .ok (none, _) => (reg, [], .closed)
    | .ok (some data, s1) =>
      match dispatchCmd fs reg data s1 with
      | .error _ => (reg, [], .crashed)
      | .ok (reg2, outs, rest, stop) =>
        if stop then (reg2, outs, .closed)
        else
          ((handleGo fuel reg2 fs rest).1,
           outs ++ (handleGo fuel reg2 fs rest).2.1,
           (handleGo fuel reg2 fs rest).2.2)

/-- `ThreadedTCPRequestHandler.handle` on a whole connection: the registry
when the connection ends, every frame sent, and how the connection ended. -/
def handle (reg : Registry) (fs : FileSys) (s : List Nat) :
    Registry × List Output × ConnTerm :=
  handleGo (s.length + 1) reg fs s

/-! Supporting lemmas about the framing layer. -/

theorem pack_u32_length (n : Nat) : (pack_u32 n).length = 4 := rfl

theorem pack_u32_ne_nil (n : Nat) : pack_u32 n ≠ [] := by simp [pack_u32]

theorem le32_pack_u32 (n : Nat) (h : n < 4294967296) :
    le32 (pack_u32 n) = n := by
  simp only [le32, pack_u32]; omega

theorem unpack_pack (n : Nat) (h : n < 4294967296) :
    unpack_u32 (pack_u32 n) = some n := by
  simp [unpack_u32, pack_u32_length, le32_pack_u32 n h]

theorem take4_frame (p t : List Nat) :
    (sendFrame p ++ t).take 4 = pack_u32 p.length := by
  rw [sendFrame, List.append_assoc]; exact List.take_left' rfl

theorem drop4_frame (p t : List Nat) :
    (sendFrame p ++ t).drop 4 = p ++ t := by
  rw [sendFrame, List.append_assoc]; exact List.drop_left' rfl

theorem handlerReceive_frame (p t : List Nat) (h1 : 0 < p.length)
    (h2 : p.length ≤ 4096) :
    ThreadedTCPRequestHandler.receive (sendFrame p ++ t) = .ok (some p, t) := by
  have hc : ¬ (p.length = 0 ∨ p.length > max_buffer_size) := by
    simp only [max_buffer_size]; omega
  unfold ThreadedTCPRequestHandler.receive
  rw [take4_frame, drop4_frame, if_neg (pack_u32_ne_nil _),
    unpack_pack p.length (by omega)]
  simp only [hc, if_false, List.take_left, List.drop_left]

theorem simpleReceive_frame (p t : List Nat) (h1 : 0 < p.length)
    (h2 : p.length ≤ 4096) :
    SimpleSocket.receive (sendFrame p ++ t) = .ok (some p, t) := by
  have hc : ¬ (p.length = 0 ∨ p.length > max_data_size) := by
    simp only [max_data_size]; omega
  unfold SimpleSocket.receive
  rw [take4_frame, drop4_frame, unpack_pack p.length (by omega)]
  simp only [hc, if_false, List.take_left, List.drop_left]

/-- C1: for every byte payload p with 0 < len(p) <= 4096 (MaxFrameSize),
calling receive() on a channel whose stream holds exactly the bytes written
by send(p) (a 4-byte length header immediately followed by p) returns
exactly p, on both the client's SimpleSocket and the server handler's
framed channel. -/
theorem C1_frame_roundtrip (p : List Nat) (h1 : 0 < p.length)
    (h2 : p.length ≤ 4096) :
    SimpleSocket.receive (sendFrame p) = .ok (some p, []) ∧
    ThreadedTCPRequestHandler.receive (sendFrame p) = .ok (some p, []) := by
  have hs := simpleReceive_frame p [] h1 h2
  have hh := handlerReceive_frame p [] h1 h2
  rw [List.append_nil] at hs hh
  exact ⟨hs, hh⟩

/-- C1 witness: round trip of the concrete payload "abc" on both channels. -/
theorem C1_frame_roundtrip_witness :
    SimpleSocket.receive (sendFrame (strBytes "abc")) =
      .ok (some (strBytes "abc"), []) ∧
    ThreadedTCPRequestHandler.receive (sendFrame (strBytes "abc")) =
      .ok (some (strBytes "abc"), []) :=
  C1_frame_roundtrip (strBytes "abc") (by decide) (by decide)

/-- C2 counterexample: on a stream delivering zero header bytes (the peer
closed before sending anything), the client's SimpleSocket.receive does not
return None: `struct.unpack` is applied to the empty read without the
empty-header check the server has, raising an uncaught struct.error
(modelled as `Except.error`).  This refutes the claim's "holds for both". -/
theorem C2_receive_none_counterexample :
    SimpleSocket.receive [] = .error () := by decide

/-- C2 amended: the server handler's receive returns None exactly when zero
header bytes were read or when a full 4-byte header decodes to a length
of 0 or above 4096; the client's SimpleSocket.receive satisfies the same
size-based condition when a full header is present, but on zero header
bytes it raises an uncaught struct.error instead of returning None. -/
theorem C2_receive_none_amended (s : List Nat) (h : 4 ≤ s.length) :
    (ThreadedTCPRequestHandler.receive s = .ok (none, s.drop 4) ↔
      le32 (s.take 4) = 0 ∨ le32 (s.take 4) > 4096) ∧
    (SimpleSocket.receive s = .ok (none, s.drop 4) ↔
      le32 (s.take 4) = 0 ∨ le32 (s.take 4) > 4096) ∧
    ThreadedTCPRequestHandler.receive [] = .ok (none, []) ∧
    SimpleSocket.receive [] = .error () := by
  have hlen : (s.take 4).length = 4 := by
    rw [List.length_take]; omega
  have hne : s.take 4 ≠ [] := by
    intro hh; rw [hh] at hlen; simp at hlen
  have hup : unpack_u32 (s.take 4) = some (le32 (s.take 4)) := by
    simp [unpack_u32, hlen]
  refine ⟨?_, ?_, by decide, by decide⟩
  · by_cases hbad : le32 (s.take 4) = 0 ∨ le32 (s.take 4) > 4096
    · simp [ThreadedTCPRequestHandler.receive, hne, hup, max_buffer_size, hbad]
    · simp [ThreadedTCPRequestHandler.receive, hne, hup, max_buffer_size, hbad]
  · by_cases hbad : le32 (s.take 4) = 0 ∨ le32 (s.take 4) > 4096
    · simp [SimpleSocket.receive, hup, max_data_size, hbad]
    · simp [SimpleSocket.receive, hup, max_data_size, hbad]

/-- C2 amended witness: a concrete zero-length header makes both channels
return None. -/
theorem C2_receive_none_amended_witness :
    (4 ≤ ([0, 0, 0, 0] : List Nat).length) ∧
    (ThreadedTCPRequestHandler.receive [0, 0, 0, 0] =
      .ok (none, ([0, 0, 0, 0] : List Nat).drop 4) ↔
      le32 (([0, 0, 0, 0] : List Nat).take 4) = 0 ∨
        le32 (([0, 0, 0, 0] : List Nat).take 4) > 4096) :=
  ⟨by decide, (C2_receive_none_amended [0, 0, 0, 0] (by decide)).1⟩

/-! Supporting lemmas about the registry and SET_CLASSIFIER. -/

/-- The immutable part of a registry entry: its name and classifier
instance (everything except the enabled flag). -/
def entrySkel (p : List Nat × ClassifierEntry) :
    List Nat × (List (List Nat) → List Nat) :=
  (p.1, p.2.cls)

theorem lookupEntry_setFlag_self (reg : Registry) (name : List Nat) (b : Bool)
    (e : ClassifierEntry) (h : lookupEntry reg name = some e) :
    lookupEntry (setFlag reg name b) name = some { e with enabled := b } := by
  induction reg with
  | nil => simp [lookupEntry] at h
  | cons p t ih =>
    obtain ⟨n, e0⟩ := p
    by_cases hn : n = name
    · subst hn
      simp [lookupEntry] at h
      subst h
      simp [setFlag, lookupEntry]
    · simp [lookupEntry, hn] at h
      simp [setFlag, lookupEntry, hn]
      exact ih h

theorem setFlag_skel (reg : Registry) (name : List Nat) (b : Bool) :
    (setFlag reg name b).map entrySkel = reg.map entrySkel := by
  induction reg with
  | nil => rfl
  | cons p t ih =>
    obtain ⟨n, e0⟩ := p
    by_cases hn : n = name
    · simp [setFlag, hn, entrySkel]
    · simp [setFlag, hn, entrySkel]
      simpa [entrySkel] using ih

/-- First-match lookup in a name -> enabled snapshot. -/
def lookupFlag : List (List Nat × Bool) → List Nat → Option Bool
  | [], _ => none
  | (n, b) :: t, name => if n = name then some b else lookupFlag t name

theorem lookupFlag_flagsOf (reg : Registry) (name : List Nat) :
    lookupFlag (flagsOf reg) name =
      (lookupEntry reg name).map (fun e => e.enabled) := by
  induction reg with
  | nil => rfl
  | cons p t ih =>
    obtain ⟨n, e0⟩ := p
    by_cases hn : n = name
    · simp [flagsOf, lookupFlag, lookupEntry, hn]
    · simp [flagsOf, lookupFlag, lookupEntry, hn]
      simpa [flagsOf] using ih

theorem set_classifier_missing (reg : Registry) (name v : List Nat)
    (h : lookupEntry reg name = none) :
    set_classifier reg name v = .error () := by
  by_cases h1 : asciiLower v = strBytes "true"
  · simp [set_classifier, set_classifier_step, h1, h]
  · by_cases h2 : asciiLower v = strBytes "false"
    · simp [set_classifier, set_classifier_step, h1, h2, h]
    · simp [set_classifier, set_classifier_step, h1, h2, h]

theorem set_classifier_true (reg : Registry) (name v : List Nat)
    (e : ClassifierEntry) (h : lookupEntry reg name = some e)
    (hv : asciiLower v = strBytes "true") :
    set_classifier reg name v =
      .ok (setFlag reg name true, .json "OK" (.flagsList [(name, true)])) := by
  simp [set_classifier, set_classifier_step, hv, h,
    lookupEntry_setFlag_self reg name true e h]

theorem set_classifier_false (reg : Registry) (name v : List Nat)
    (e : ClassifierEntry) (h : lookupEntry reg name = some e)
    (hv : asciiLower v = strBytes "false") :
    set_classifier reg name v =
      .ok (setFlag reg name false, .json "OK" (.flagsList [(name, false)])) := by
  by_cases h1 : asciiLower v = strBytes "true"
  · rw [hv] at h1; exact absurd h1 (by decide)
  · have hne : strBytes "false" ≠ strBytes "true" := by decide
    simp [set_classifier, set_classifier_step, h1, hv, h, hne,
      lookupEntry_setFlag_self reg name false e h]

theorem set_classifier_invalid (reg : Registry) (name v : List Nat)
    (e : ClassifierEntry) (h : lookupEntry reg name = some e)
    (h1 : asciiLower v ≠ strBytes "true") (h2 : asciiLower v ≠ strBytes "false") :
    set_classifier reg name v =
      .ok (reg, .json "ERROR" (.flagsList [(name, e.enabled)])) := by
  simp [set_classifier, set_classifier_step, h1, h2, h]

/-- Example registry with a single registered classifier named "subject",
initially enabled; its predict echoes the concatenation of the lines. -/
def regOne : Registry := [(strBytes "subject", ⟨true, fun ls => ls.flatten⟩)]

/-- C3 counterexample: on a registry whose only classifier is "subject",
SET_CLASSIFIER with the unregistered name "xx" and the well-formed value
"true" does not return an ERROR response: the dict access
`classifiers['xx']` raises an uncaught KeyError (modelled as
`Except.error`), which is connection-fatal, so the claim's "returns a
failure indicator (an ERROR response) and does not crash" is false. -/
theorem C3_set_classifier_unknown_counterexample :
    set_classifier regOne (strBytes "xx") (strBytes "true") = .error () ∧
    dispatchCmd [] regOne (strBytes "SET_CLASSIFIER:xx:true") [] = .error () :=
  ⟨rfl, rfl⟩

/-- C3 amended: SET_CLASSIFIER with an unregistered name raises an uncaught
KeyError (connection-fatal, no response) for every value; with a registered
name, a value that is not case-insensitively "true"/"false" returns an
ERROR response and leaves the registry unchanged, and the case-insensitive
literals mutate the entry's enabled flag and report success. -/
theorem C3_set_classifier_amended (reg : Registry) (name value : List Nat) :
    (lookupEntry reg name = none → set_classifier reg name value = .error ()) ∧
    (∀ e, lookupEntry reg name = some e →
      asciiLower value ≠ strBytes "true" → asciiLower value ≠ strBytes "false" →
      set_classifier reg name value =
        .ok (reg, .json "ERROR" (.flagsList [(name, e.enabled)]))) ∧
    (∀ e, lookupEntry reg name = some e → asciiLower value = strBytes "true" →
      set_classifier reg name value =
        .ok (setFlag reg name true, .json "OK" (.flagsList [(name, true)]))) ∧
    (∀ e, lookupEntry reg name = some e → asciiLower value = strBytes "false" →
      set_classifier reg name value =
        .ok (setFlag reg name false, .json "OK" (.flagsList [(name, false)]))) :=
  ⟨set_classifier_missing reg name value,
   fun e he => set_classifier_invalid reg name value e he,
   fun e he => set_classifier_true reg name value e he,
   fun e he => set_classifier_false reg name value e he⟩

/-- C3 amended witness: on the concrete registry, an invalid value for the
registered name yields the ERROR response with the registry unchanged. -/
theorem C3_set_classifier_amended_witness :
    set_classifier regOne (strBytes "subject") (strBytes "xyz") =
      .ok (regOne, .json "ERROR" (.flagsList [(strBytes "subject", true)])) :=
  (C3_set_classifier_amended regOne (strBytes "subject") (strBytes "xyz")).2.1
    ⟨true, fun ls => ls.flatten⟩ rfl (by decide) (by decide)

/-- C5: for a registered classifier name, SET_CLASSIFIER with a value that
is not case-insensitively "true"/"false" responds ERROR and leaves the
entry's flag (indeed the whole registry) unchanged; the case-insensitive
literals "TRUE"/"False" set the flag accordingly; and the LIST_CLASSIFIER
snapshot taken right after SET_CLASSIFIER(name, "true") reports
enabled=true for that name. -/
theorem C5_set_classifier_list (reg : Registry) (name v : List Nat)
    (e : ClassifierEntry) (h : lookupEntry reg name = some e) :
    (asciiLower v ≠ strBytes "true" → asciiLower v ≠ strBytes "false" →
      set_classifier reg name v =
        .ok (reg, .json "ERROR" (.flagsList [(name, e.enabled)]))) ∧
    set_classifier reg name (strBytes "TRUE") =
      .ok (setFlag reg name true, .json "OK" (.flagsList [(name, true)])) ∧
    set_classifier reg name (strBytes "False") =
      .ok (setFlag reg name false, .json "OK" (.flagsList [(name, false)])) ∧
    list_classifier (setFlag reg name true) =
      .json "OK" (.flags (flagsOf (setFlag reg name true))) ∧
    lookupFlag (flagsOf (setFlag reg name true)) name = some true := by
  refine ⟨set_classifier_invalid reg name v e h,
    set_classifier_true reg name (strBytes "TRUE") e h (by decide),
    set_classifier_false reg name (strBytes "False") e h (by decide),
    rfl, ?_⟩
  rw [lookupFlag_flagsOf, lookupEntry_setFlag_self reg name true e h]
  rfl

/-- C5 witness: the concrete registry, an invalid value, and the literals. -/
theorem C5_set_classifier_list_witness :
    (set_classifier regOne (strBytes "subject") (strBytes "yes") =
      .ok (regOne, .json "ERROR" (.flagsList [(strBytes "subject", true)]))) ∧
    lookupFlag (flagsOf (setFlag regOne (strBytes "subject") true))
      (strBytes "subject") = some true := by
  have h := C5_set_classifier_list regOne (strBytes "subject") (strBytes "yes")
    ⟨true, fun ls => ls.flatten⟩ rfl
  exact ⟨h.1 (by decide) (by decide), h.2.2.2.2⟩

/-- C10: well-framed command payloads whose command line has too few
colon-separated arguments — SET_CLASSIFIER with fewer than two arguments,
MD5_FILE or PREDICT_FILE with none — make the dispatcher's positional
indexing (header[1] / header[2]) raise an uncaught IndexError, so the
handler terminates the connection with no response at all (crash), not an
ERROR response. -/
theorem C10_missing_args_crash (fs : FileSys) (reg : Registry)
    (rest : List Nat) :
    dispatchCmd fs reg (strBytes "SET_CLASSIFIER") rest = .error () ∧
    dispatchCmd fs reg (strBytes "SET_CLASSIFIER:subject") rest = .error () ∧
    dispatchCmd fs reg (strBytes "MD5_FILE") rest = .error () ∧
    dispatchCmd fs reg (strBytes "PREDICT_FILE") rest = .error () ∧
    handle reg fs (sendFrame (strBytes "SET_CLASSIFIER")) =
      (reg, [], .crashed) :=
  ⟨rfl, rfl, rfl, rfl, rfl⟩

/-! Supporting lemmas about the streaming sub-loop. -/

theorem handlerReceive_sentinel (t : List Nat) :
    ThreadedTCPRequestHandler.receive (pack_u32 0 ++ t) = .ok (none, t) := by
  unfold ThreadedTCPRequestHandler.receive
  rw [List.take_left' (pack_u32_length 0), List.drop_left' (pack_u32_length 0),
    if_neg (pack_u32_ne_nil 0), unpack_pack 0 (by norm_num)]
  simp

theorem handlerReceive_badsize (n : Nat) (t : List Nat) (h1 : 4096 < n)
    (h2 : n < 4294967296) :
    ThreadedTCPRequestHandler.receive (pack_u32 n ++ t) = .ok (none, t) := by
  unfold ThreadedTCPRequestHandler.receive
  rw [List.take_left' (pack_u32_length n), List.drop_left' (pack_u32_length n),
    if_neg (pack_u32_ne_nil n), unpack_pack n h2]
  have : n = 0 ∨ n > max_buffer_size := by right; simpa [max_buffer_size] using h1
  simp [this]

theorem streamAccumGo_frames (chunks : List (List Nat)) :
    ∀ (fuel : Nat) (t : List Nat), chunks.length < fuel →
    (∀ c ∈ chunks, 0 < c.length ∧ c.length ≤ 4096) →
    streamAccumGo fuel ((chunks.map sendFrame).flatten ++ (pack_u32 0 ++ t)) =
      .ok (chunks, t) := by
  induction chunks with
  | nil =>
    intro fuel t hf _
    obtain ⟨fuel, rfl⟩ : ∃ f, fuel = f + 1 := ⟨fuel - 1, by omega⟩
    simp [streamAccumGo, handlerReceive_sentinel]
  | cons c cs ih =>
    intro fuel t hf hb
    obtain ⟨fuel, rfl⟩ : ∃ f, fuel = f + 1 := ⟨fuel - 1, by omega⟩
    have hc := hb c (by simp)
    have hstream :
        ((c :: cs).map sendFrame).flatten ++ (pack_u32 0 ++ t) =
          sendFrame c ++ ((cs.map sendFrame).flatten ++ (pack_u32 0 ++ t)) := by
      simp [List.append_assoc]
    rw [hstream]
    simp [streamAccumGo, handlerReceive_frame c _ hc.1 hc.2,
      ih fuel t (by simpa using Nat.lt_of_succ_lt_succ hf)
        (fun x hx => hb x (by simp [hx]))]

theorem frames_length_ge (chunks : List (List Nat)) :
    chunks.length ≤ (chunks.map sendFrame).flatten.length := by
  induction chunks with
  | nil => simp
  | cons c cs ih =>
    simp only [List.map_cons, List.flatten_cons, List.length_append,
      List.length_cons, sendFrame, pack_u32]
    simp only [sendFrame] at ih
    simp at ih ⊢
    omega

theorem streamAccum_frames (chunks : List (List Nat)) (t : List Nat)
    (hb : ∀ c ∈ chunks, 0 < c.length ∧ c.length ≤ 4096) :
    streamAccum ((chunks.map sendFrame).flatten ++ (pack_u32 0 ++ t)) =
      .ok (chunks, t) := by
  apply streamAccumGo_frames chunks _ t _ hb
  have h := frames_length_ge chunks
  simp only [List.length_append, pack_u32_length]
  omega

theorem streamAccum_sentinel (t : List Nat) :
    streamAccum (pack_u32 0 ++ t) = .ok ([], t) := by
  have h := streamAccum_frames [] t (by simp)
  simpa using h

/-- C7: for every finite sequence of non-empty (frame-sized) chunks
followed by the zero-length sentinel frame, MD5_STREAM responds OK with the
MD5 hex digest of the chunks' concatenation, equal to what MD5_FILE
responds on a file containing exactly that concatenation; in particular the
chunk "abc" yields 900150983cd24fb0d6963f7d28e17f72. -/
theorem C7_md5_stream_file (chunks : List (List Nat)) (t : List Nat)
    (fs : FileSys) (f : List Nat)
    (hb : ∀ c ∈ chunks, 0 < c.length ∧ c.length ≤ 4096)
    (hf : lookupFile fs f = some chunks.flatten) :
    md5_stream ((chunks.map sendFrame).flatten ++ (pack_u32 0 ++ t)) =
      .ok (.json "OK" (.str (md5hex chunks.flatten)), t) ∧
    md5_file fs f = .ok (.json "OK" (.str (md5hex chunks.flatten))) ∧
    md5hex (strBytes "abc") = "900150983cd24fb0d6963f7d28e17f72" := by
  refine ⟨?_, ?_, by decide⟩
  · simp [md5_stream, streamAccum_frames chunks t hb]
  · simp [md5_file, hf]

/-- Server-local file "f.txt" holding exactly the bytes "abc". -/
def fsAbc : FileSys := [(strBytes "f.txt", strBytes "abc")]

/-- C7 witness: the chunk sequence ["abc"] against a file holding "abc". -/
theorem C7_md5_stream_file_witness :
    md5_stream (([strBytes "abc"].map sendFrame).flatten ++ (pack_u32 0 ++ [])) =
      .ok (.json "OK" (.str (md5hex (List.flatten [strBytes "abc"]))), []) ∧
    md5_file fsAbc (strBytes "f.txt") =
      .ok (.json "OK" (.str (md5hex (List.flatten [strBytes "abc"])))) ∧
    md5hex (strBytes "abc") = "900150983cd24fb0d6963f7d28e17f72" :=
  C7_md5_stream_file [strBytes "abc"] [] fsAbc (strBytes "f.txt")
    (by decide) (by decide)

/-- C6: PREDICT_STREAM whose accumulated frames concatenate to a content
and PREDICT_FILE on a server-local file holding the same content produce
identical (byte-for-byte equal) result mappings over the same registry:
both respond OK with `predictAll` applied to the newline-split content. -/
theorem C6_predict_stream_eq_file (reg : Registry) (chunks : List (List Nat))
    (t : List Nat) (fs : FileSys) (f : List Nat)
    (hb : ∀ c ∈ chunks, 0 < c.length ∧ c.length ≤ 4096)
    (hf : lookupFile fs f = some chunks.flatten) :
    predict_stream reg ((chunks.map sendFrame).flatten ++ (pack_u32 0 ++ t)) =
      .ok (.json "OK" (.preds (predictAll reg (bsplit 10 chunks.flatten))), t) ∧
    predict_file fs reg f =
      .ok (.json "OK" (.preds (predictAll reg (bsplit 10 chunks.flatten)))) := by
  refine ⟨?_, ?_⟩
  · simp [predict_stream, streamAccum_frames chunks t hb]
  · simp [predict_file, hf]

/-- Server-local file "two.txt" holding the two-line content "ab\ncd". -/
def fsTwo : FileSys := [(strBytes "two.txt", strBytes "ab" ++ [10] ++ strBytes "cd")]

/-- C6 witness: the chunks ["ab\n", "cd"] against the file holding
"ab\ncd", on the concrete one-classifier registry. -/
theorem C6_predict_stream_eq_file_witness :
    predict_stream regOne
        (([strBytes "ab" ++ [10], strBytes "cd"].map sendFrame).flatten ++
          (pack_u32 0 ++ [])) =
      .ok (.json "OK" (.preds (predictAll regOne
        (bsplit 10 (List.flatten [strBytes "ab" ++ [10], strBytes "cd"])))), []) ∧
    predict_file fsTwo regOne (strBytes "two.txt") =
      .ok (.json "OK" (.preds (predictAll regOne
        (bsplit 10 (List.flatten [strBytes "ab" ++ [10], strBytes "cd"]))))) :=
  C6_predict_stream_eq_file regOne [strBytes "ab" ++ [10], strBytes "cd"] []
    fsTwo (strBytes "two.txt") (by decide) (by decide)

/-! Supporting lemmas for C8. -/

theorem predictAll_eq_filter (reg : Registry) (lines : List (List Nat)) :
    predictAll reg lines =
      (reg.filter fun p => p.2.enabled).map fun p => (p.1, p.2.cls lines) := by
  induction reg with
  | nil => rfl
  | cons p t ih =>
    obtain ⟨n, e⟩ := p
    by_cases he : e.enabled <;> simp [predictAll, List.filter, he, ih]

theorem predictAll_keys (reg : Registry) (lines : List (List Nat)) :
    (predictAll reg lines).map Prod.fst =
      (reg.filter fun p => p.2.enabled).map Prod.fst := by
  induction reg with
  | nil => rfl
  | cons p t ih =>
    obtain ⟨n, e⟩ := p
    by_cases he : e.enabled <;> simp [predictAll, List.filter, he, ih]

theorem predictAll_disabled (reg : Registry) (lines : List (List Nat))
    (h : ∀ p ∈ reg, p.2.enabled = false) :
    predictAll reg lines = [] := by
  induction reg with
  | nil => rfl
  | cons p t ih =>
    obtain ⟨n, e⟩ := p
    have hp : e.enabled = false := h (n, e) (by simp)
    simp [predictAll, hp]
    exact ih fun q hq => h q (by simp [hq])

/-- C8: the result mapping of PREDICT_STREAM and PREDICT_FILE is exactly
the filter-map of the registry over its enabled entries, in registry
order: its keys are exactly the enabled classifier names, predict is
invoked only on enabled entries, disabled entries contribute no key; and
when every classifier is disabled both commands respond OK with an empty
result mapping. -/
theorem C8_predict_enabled_only (reg : Registry) (lines : List (List Nat)) :
    predictAll reg lines =
      ((reg.filter fun p => p.2.enabled).map fun p => (p.1, p.2.cls lines)) ∧
    (predictAll reg lines).map Prod.fst =
      ((reg.filter fun p => p.2.enabled).map Prod.fst) ∧
    ((∀ p ∈ reg, p.2.enabled = false) → ∀ t : List Nat,
      predict_stream reg (pack_u32 0 ++ t) =
        .ok (.json "OK" (.preds []), t)) ∧
    ((∀ p ∈ reg, p.2.enabled = false) → ∀ (fs : FileSys) (f content : List Nat),
      lookupFile fs f = some content →
      predict_file fs reg f = .ok (.json "OK" (.preds []))) := by
  refine ⟨predictAll_eq_filter reg lines, predictAll_keys reg lines, ?_, ?_⟩
  · intro h t
    simp [predict_stream, streamAccum_sentinel, predictAll_disabled reg _ h]
  · intro h fs f content hf
    simp [predict_file, hf, predictAll_disabled reg _ h]

/-- Example registry with the single classifier "subject" disabled. -/
def regOneOff : Registry := [(strBytes "subject", ⟨false, fun ls => ls.flatten⟩)]

/-- C8 witness: on the all-disabled concrete registry, PREDICT_STREAM of a
bare sentinel responds OK with an empty result mapping. -/
theorem C8_predict_enabled_only_witness :
    predict_stream regOneOff (pack_u32 0 ++ []) =
      .ok (.json "OK" (.preds []), []) :=
  (C8_predict_enabled_only regOneOff [] ).2.2.1 (by decide) []

/-! Supporting lemmas for C4: framing errors inside and outside streaming. -/

theorem handlerReceive_none_of_badsize (s : List Nat) (h : 4 ≤ s.length)
    (hbad : le32 (s.take 4) = 0 ∨ 4096 < le32 (s.take 4)) :
    ThreadedTCPRequestHandler.receive s = .ok (none, s.drop 4) := by
  have hlen : (s.take 4).length = 4 := by rw [List.length_take]; omega
  have hne : s.take 4 ≠ [] := by intro hh; rw [hh] at hlen; simp at hlen
  have hup : unpack_u32 (s.take 4) = some (le32 (s.take 4)) := by
    simp [unpack_u32, hlen]
  have hbad2 : le32 (s.take 4) = 0 ∨ le32 (s.take 4) > max_buffer_size := by
    simpa [max_buffer_size] using hbad
  simp [ThreadedTCPRequestHandler.receive, hne, hup, hbad2]

theorem handlerReceive_truncated (s : List Nat) (h1 : 0 < s.length)
    (h2 : s.length < 4) :
    ThreadedTCPRequestHandler.receive s = .error () := by
  have hlen : (s.take 4).length = s.length := by rw [List.length_take]; omega
  have hne : s.take 4 ≠ [] := by
    intro hh
    rw [hh] at hlen
    simp at hlen
    omega
  have hup : unpack_u32 (s.take 4) = none := by
    simp [unpack_u32, hlen]
    omega
  simp [ThreadedTCPRequestHandler.receive, hne, hup]

theorem dispatch_md5stream (fs : FileSys) (reg : Registry) (rest : List Nat) :
    dispatchCmd fs reg (strBytes "MD5_STREAM") rest =
      match md5_stream rest with
      | .error _ => .error ()
      | .ok (out, rest2) => .ok (reg, [out], rest2, false) := rfl

theorem md5_stream_badsize (n : Nat) (t : List Nat) (h1 : 4096 < n)
    (h2 : n < 4294967296) :
    md5_stream (pack_u32 n ++ t) = .ok (.json "OK" (.str (md5hex [])), t) := by
  have hacc : streamAccum (pack_u32 n ++ t) = .ok ([], t) := by
    simp [streamAccum, streamAccumGo, handlerReceive_badsize n t h1 h2]
  simp [md5_stream, hacc]

/-- C4 counterexample: the connection stream frames a PREDICT_STREAM
command and then a bogus oversized length header (5000 > MaxFrameSize).
The bad frame arrives while the streaming command is consuming frames,
yet a response IS sent (the predict response over the empty accumulation)
and the loop then ends normally — refuting "no response is sent for it",
since the claim requires this also during streaming commands. -/
theorem C4_streaming_framing_counterexample :
    handle regOneOff []
        (sendFrame (strBytes "PREDICT_STREAM") ++ pack_u32 5000) =
      (regOneOff, [.json "OK" (.preds [])], .closed) := rfl

/-- C4 amended: in the main command loop a framing error is connection-fatal
with nothing sent — a first header decoding to 0 or above 4096 closes the
connection silently, and a truncated 1–3 byte header crashes the handler
(also nothing sent).  But when the bad frame arrives while a streaming
command is consuming frames, receive's None is indistinguishable from the
sentinel: the streaming command still sends its single response (MD5_STREAM
responds with the digest of the empty accumulation) and the connection is
not terminated at that point. -/
theorem C4_framing_error_amended (reg : Registry) (fs : FileSys)
    (s t : List Nat) (n : Nat) :
    (4 ≤ s.length → le32 (s.take 4) = 0 ∨ 4096 < le32 (s.take 4) →
      handle reg fs s = (reg, [], .closed)) ∧
    (0 < s.length → s.length < 4 →
      handle reg fs s = (reg, [], .crashed)) ∧
    (4096 < n → n < 4294967296 →
      (handle reg fs
          (sendFrame (strBytes "MD5_STREAM") ++ (pack_u32 n ++ t))).2.1.head? =
        some (.json "OK" (.str (md5hex [])))) := by
  refine ⟨?_, ?_, ?_⟩
  · intro h4 hbad
    unfold handle
    simp [handleGo, handlerReceive_none_of_badsize s h4 hbad]
  · intro h1 h2
    unfold handle
    simp [handleGo, handlerReceive_truncated s h1 h2]
  · intro hn1 hn2
    unfold handle
    simp [handleGo,
      handlerReceive_frame (strBytes "MD5_STREAM") (pack_u32 n ++ t)
        (by decide) (by decide),
      dispatch_md5stream, md5_stream_badsize n t hn1 hn2]

/-- C4 amended witness: concrete instances of the three amended clauses. -/
theorem C4_framing_error_amended_witness :
    handle regOne [] (pack_u32 5000) = (regOne, [], .closed) ∧
    handle regOne [] [1] = (regOne, [], .crashed) ∧
    (handle regOne []
        (sendFrame (strBytes "MD5_STREAM") ++ (pack_u32 5000 ++ []))).2.1.head? =
      some (.json "OK" (.str (md5hex []))) :=
  ⟨(C4_framing_error_amended regOne [] (pack_u32 5000) [] 0).1
      (by decide) (by decide),
   (C4_framing_error_amended regOne [] [1] [] 0).2.1 (by decide) (by decide),
   (C4_framing_error_amended regOne [] [] [] 5000).2.2 (by decide) (by decide)⟩

/-! Supporting lemmas for C9: the registry skeleton (names and classifier
instances) is preserved by every command; only SET_CLASSIFIER touches the
registry at all. -/

theorem set_classifier_skel (reg : Registry) (c v : List Nat)
    (reg2 : Registry) (out : Output)
    (h : set_classifier reg c v = .ok (reg2, out)) :
    reg2.map entrySkel = reg.map entrySkel := by
  by_cases h1 : asciiLower v = strBytes "true"
  · cases hl : lookupEntry reg c with
    | none => rw [set_classifier_missing reg c v hl] at h; exact absurd h (by simp)
    | some e =>
      rw [set_classifier_true reg c v e hl h1] at h
      simp only [Except.ok.injEq, Prod.mk.injEq] at h
      rw [← h.1]
      exact setFlag_skel reg c true
  · by_cases h2 : asciiLower v = strBytes "false"
    · cases hl : lookupEntry reg c with
      | none => rw [set_classifier_missing reg c v hl] at h; exact absurd h (by simp)
      | some e =>
        rw [set_classifier_false reg c v e hl h2] at h
        simp only [Except.ok.injEq, Prod.mk.injEq] at h
        rw [← h.1]
        exact setFlag_skel reg c false
    · cases hl : lookupEntry reg c with
      | none => rw [set_classifier_missing reg c v hl] at h; exact absurd h (by simp)
      | some e =>
        rw [set_classifier_invalid reg c v e hl h1 h2] at h
        simp only [Except.ok.injEq, Prod.mk.injEq] at h
        rw [← h.1]

theorem dispatch_skel (fs : FileSys) (reg : Registry) (p rest : List Nat)
    (r : Registry × List Output × List Nat × Bool)
    (h : dispatchCmd fs reg p rest = .ok r) :
    r.1.map entrySkel = reg.map entrySkel := by
  unfold dispatchCmd at h
  split_ifs at h <;> (repeat' split at h) <;> (try cases h) <;> (try rfl) <;>
    exact set_classifier_skel reg _ _ _ _ (by assumption)

theorem dispatch_nonset (fs : FileSys) (reg : Registry) (p rest : List Nat)
    (r : Registry × List Output × List Nat × Bool)
    (hv : cmdVerb p ≠ strBytes "SET_CLASSIFIER")
    (h : dispatchCmd fs reg p rest = .ok r) :
    r.1 = reg := by
  unfold dispatchCmd at h
  split_ifs at h <;> (repeat' split at h) <;> (try cases h) <;> (try rfl) <;>
    exact absurd (by assumption) hv

theorem handleGo_skel (fuel : Nat) :
    ∀ (reg : Registry) (fs : FileSys) (s : List Nat),
    (handleGo fuel reg fs s).1.map entrySkel = reg.map entrySkel := by
  induction fuel with
  | zero => intro reg fs s; rfl
  | succ f ih =>
    intro reg fs s
    simp only [handleGo]
    split
    · rfl
    · rfl
    · split
      · rfl
      · rename_i heq
        split_ifs
        · exact dispatch_skel _ _ _ _ _ heq
        · exact (ih _ fs _).trans (dispatch_skel _ _ _ _ _ heq)

/-- C9: for every connection (and hence every command processed by it), the
registry's set of classifier names and each entry's classifier instance are
unchanged — the skeleton (name, instance) of the registry is invariant
under `handle` — and every command other than SET_CLASSIFIER leaves the
registry exactly as it was, so SET_CLASSIFIER's enabled-flag update is the
only registry mutation any command performs. -/
theorem C9_registry_invariant :
    (∀ (reg : Registry) (fs : FileSys) (s : List Nat),
      (handle reg fs s).1.map entrySkel = reg.map entrySkel) ∧
    (∀ (fs : FileSys) (reg : Registry) (payload rest : List Nat)
      (r : Registry × List Output × List Nat × Bool),
      cmdVerb payload ≠ strBytes "SET_CLASSIFIER" →
      dispatchCmd fs reg payload rest = .ok r → r.1 = reg) :=
  ⟨fun reg fs s => handleGo_skel (s.length + 1) reg fs s,
   fun fs reg payload rest r hv h => dispatch_nonset fs reg payload rest r hv h⟩

/-- C9 witness: a PING connection preserves the concrete registry's
skeleton, and the PING dispatch returns the registry untouched. -/
theorem C9_registry_invariant_witness :
    (handle regOne [] (sendFrame (strBytes "PING"))).1.map entrySkel =
      regOne.map entrySkel ∧
    ((regOne, [ping_resp], ([] : List Nat), false) :
      Registry × List Output × List Nat × Bool).1 = regOne :=
  ⟨C9_registry_invariant.1 regOne [] (sendFrame (strBytes "PING")),
   C9_registry_invariant.2 [] regOne (strBytes "PING") []
     (regOne, [ping_resp], [], false) (by decide) rfl⟩

end TextClassification
